import Mathlib

/-!
Shallow embedding of the event lifecycle and reminder scheduling core of the
tg_bot repository (src/events.py, src/scheduler.py, src/reminders.py), together
with proofs about the claims of the specification.

Modelling conventions:
* Absolute instants are integers (abstract seconds).  `datetime` objects are
  timezone-aware in the source and every comparison (`<=` on datetimes,
  `astimezone`) acts on the underlying absolute instant, so `astimezone` is the
  identity in the model.
* The datetime library (`datetime.fromisoformat`, `isoformat`, `ZoneInfo`) and
  other pure external helpers (`_slugify`, `strftime`, `str.lower`, the sheet
  backend link) are bundled as an explicit environment `Env` of pure functions;
  the repository code is translated on top of it.
* File I/O (`_load_payload` / `_save_payload`) becomes explicit state passing:
  every operation takes and returns the `Store`.
* Python falsy checks on strings/options are translated explicitly.
-/

/-- Environment of external pure functions used by the source. -/
structure Env where
  /-- models `datetime.fromisoformat` plus timezone attachment for naive
  strings (`Event.parsed_datetime`): raw string and the event's timezone name
  give the absolute instant, or `none` on `ValueError`. -/
  parse : String → String → Option Int
  /-- models `dt.astimezone(tz).isoformat()`: instant and timezone name to the
  stored ISO string. -/
  render : Int → String → String
  /-- models whether `ZoneInfo(name)` succeeds. -/
  validTz : String → Bool
  /-- models `_slugify` (regex text munging over the title). -/
  slug : String → String
  /-- models `event_dt.astimezone(TZ).strftime("%Y-%m-%d")`. -/
  datePart : Int → String
  /-- models `database.get_sheet_link` for `create_event_sheet`. -/
  sheetLink : String → String
  /-- models `str.lower` in `_sorted_events`. -/
  lower : String → String

/-- config.TIMEZONE -/
def TIMEZONE : String := "Europe/Moscow"

/-- The `Event` dataclass of src/events.py. -/
structure Event where
  event_id : String
  title : String
  description : String
  datetime_local : String
  timezone : String
  zoom_url : String
  pay_url : String
  sheet_name : String
  sheet_link : String
  status : String
  created_at : String
  updated_at : String
deriving DecidableEq, Repr

/-- `Event.parsed_datetime`: `None` for the empty string, otherwise the parsed
instant (timezone attachment folded into `Env.parse`); `None` on parse
failure. -/
def parsed_datetime (env : Env) (e : Event) : Option Int :=
  if e.datetime_local = "" then none else env.parse e.datetime_local e.timezone

/-- `_event_local_datetime`: `astimezone` keeps the absolute instant, so this
is the parsed instant. -/
def event_local_datetime (env : Env) (e : Event) : Option Int :=
  parsed_datetime env e

/-- `classify_status` (src/events.py:412-419). `event.status or "active"`
yields `"active"` exactly when the persisted status is the empty string. -/
def classify_status (env : Env) (now : Int) (e : Event) : String :=
  if e.status = "cancelled" then "cancelled"
  else
    match event_local_datetime env e with
    | none => if e.status = "" then "active" else e.status
    | some t => if t ≤ now then "past" else "active"

/-- One event's worth of `_auto_update_status` (src/events.py:394-409):
non-cancelled events with a parseable instant get their persisted status
recomputed from the clock, bumping `updated_at` when it changes. -/
def auto_update_event (env : Env) (now : Int) (nowIso : String) (e : Event) : Event :=
  if e.status = "cancelled" then e
  else
    match event_local_datetime env e with
    | none => e
    | some t =>
      let st := if t ≤ now then "past" else "active"
      if e.status ≠ st then { e with status := st, updated_at := nowIso } else e

/-- `_auto_update_status` over the whole list (the conditional file write only
affects persistence, not the resulting records). -/
def auto_update_status (env : Env) (now : Int) (nowIso : String)
    (events : List Event) : List Event :=
  events.map (auto_update_event env now nowIso)

/-- The persisted events document: `current_event_id` plus the event list. -/
structure Store where
  events : List Event
  current_event_id : Option String
deriving Repr, DecidableEq

/-- `get_event` (src/events.py:309-315): scan for the id; when found, run
`_auto_update_status` (mutating every record in place) and return the mutated
record; the updated store is returned alongside. -/
def get_event (env : Env) (now : Int) (nowIso : String) (s : Store)
    (event_id : String) : Option Event × Store :=
  if (s.events.find? (fun e => e.event_id == event_id)).isSome then
    let evs := auto_update_status env now nowIso s.events
    (evs.find? (fun e => e.event_id == event_id), { s with events := evs })
  else (none, s)

/-- `set_current_event` (src/events.py:352-380) restricted to the store: runs
`_auto_update_status` and persists the new current pointer (the settings
mirror and the sheet side effects are out of model scope). -/
def set_current_event (env : Env) (now : Int) (nowIso : String) (s : Store)
    (event_id : Option String) : Store :=
  { events := auto_update_status env now nowIso s.events,
    current_event_id := event_id }

/-- One `setattr` step of `update_event`'s merge loop: unknown keys fail the
`hasattr` test and are skipped; a `None` value rewrites the attribute with its
old value (no change). -/
def apply_field (e : Event) (kv : String × Option String) : Event :=
  let v := kv.2
  if kv.1 = "event_id" then { e with event_id := v.getD e.event_id }
  else if kv.1 = "title" then { e with title := v.getD e.title }
  else if kv.1 = "description" then { e with description := v.getD e.description }
  else if kv.1 = "datetime_local" then { e with datetime_local := v.getD e.datetime_local }
  else if kv.1 = "timezone" then { e with timezone := v.getD e.timezone }
  else if kv.1 = "zoom_url" then { e with zoom_url := v.getD e.zoom_url }
  else if kv.1 = "pay_url" then { e with pay_url := v.getD e.pay_url }
  else if kv.1 = "sheet_name" then { e with sheet_name := v.getD e.sheet_name }
  else if kv.1 = "sheet_link" then { e with sheet_link := v.getD e.sheet_link }
  else if kv.1 = "status" then { e with status := v.getD e.status }
  else if kv.1 = "created_at" then { e with created_at := v.getD e.created_at }
  else if kv.1 = "updated_at" then { e with updated_at := v.getD e.updated_at }
  else e

/-- Replace the first event carrying the given id. -/
def update_first (event_id : String) (f : Event → Event) : List Event → List Event
  | [] => []
  | e :: rest =>
    if e.event_id = event_id then f e :: rest
    else e :: update_first event_id f rest

/-- `update_event` (src/events.py:556-570): `KeyError` on an unknown id is
`none`; otherwise merge the provided fields, bump `updated_at`, store, and —
when the event is current — re-run `set_current_event` (which re-reads the
file, so the returned record is the merged one, not the re-auto-updated one). -/
def update_event (env : Env) (now : Int) (nowIso : String) (s : Store)
    (event_id : String) (fields : List (String × Option String)) :
    Option (Event × Store) :=
  match s.events.find? (fun e => e.event_id == event_id) with
  | none => none
  | some e0 =>
    let e1 := { fields.foldl apply_field e0 with updated_at := nowIso }
    let evs := update_first event_id (fun _ => e1) s.events
    let s1 : Store := { events := evs, current_event_id := s.current_event_id }
    let s2 :=
      if s.current_event_id = some event_id
      then set_current_event env now nowIso s1 (some event_id)
      else s1
    some (e1, s2)

/-- Event cancellation as the admin panel performs it
(src/admin_panel.py:892): `update_event(event_id, ("status": "cancelled"))`. -/
def cancel_event (env : Env) (now : Int) (nowIso : String) (s : Store)
    (event_id : String) : Option (Event × Store) :=
  update_event env now nowIso s event_id [("status", some "cancelled")]

/-- The candidate loop of `_generate_event_id`: `base`, then `base-2`,
`base-3`, … until unused.  Fuel bounds the Python `while` loop; with fuel
`existing.length + 1` the loop always ends at an unused candidate in the
source, and no claim depends on the chosen text. -/
def gen_candidate (base : String) (existing : List String) :
    Nat → String → Nat → String
  | 0, cand, _ => cand
  | fuel + 1, cand, suffix =>
    if existing.contains cand then
      gen_candidate base existing fuel (base ++ "-" ++ toString (suffix + 1)) (suffix + 1)
    else cand

/-- `_generate_event_id` (src/events.py:601-612). -/
def generate_event_id (env : Env) (title : String) (event_dt : Int)
    (events : List Event) : String :=
  let base := env.datePart event_dt ++ "__" ++ env.slug title
  let existing := events.map (·.event_id)
  gen_candidate base existing (existing.length + 1) base 1

/-- The force-past loop body of `create_event` (src/events.py:627-632). -/
def force_past_event (nowIso : String) (e : Event) : Event :=
  if e.status ≠ "cancelled" ∧ e.status ≠ "past"
  then { e with status := "past", updated_at := nowIso } else e

/-- `create_event` (src/events.py:615-658): auto-update statuses, force every
remaining non-cancelled, non-past event to `past`, build the record, append,
then `set_current_event` re-runs `_auto_update_status` over the reloaded list.
Returns the in-memory record (not re-auto-updated) with the final store. -/
def create_event (env : Env) (now : Int) (nowIso : String) (s : Store)
    (title description : String) (event_dt : Int) (timezone : String)
    (zoom_url pay_url : String) : Event × Store :=
  let events := auto_update_status env now nowIso s.events
  let events := events.map (force_past_event nowIso)
  let event_id := generate_event_id env title event_dt s.events
  let tzOk := env.validTz timezone
  let tzName := if tzOk then timezone else TIMEZONE
  let ev : Event :=
    { event_id := event_id
      title := title
      description := description
      datetime_local := env.render event_dt tzName
      timezone := tzName
      zoom_url := zoom_url
      pay_url := pay_url
      sheet_name := event_id
      sheet_link := env.sheetLink event_id
      status := "active"
      created_at := nowIso
      updated_at := nowIso }
  let events := events ++ [ev]
  let s1 := set_current_event env now nowIso
    { events := events, current_event_id := s.current_event_id } (some event_id)
  (ev, s1)

/-! Concrete demonstration environment: two ISO strings mapped to abstract
instants 2000 and 3000, with `render` the matching inverse (the real library
round-trips aware ISO strings through `fromisoformat`). -/

def demoEnv : Env where
  parse := fun s _ =>
    if s = "2030-06-01T18:00:00+03:00" then some 2000
    else if s = "2031-01-15T12:00:00+03:00" then some 3000
    else none
  render := fun t _ =>
    if t = 3000 then "2031-01-15T12:00:00+03:00"
    else if t = 2000 then "2030-06-01T18:00:00+03:00"
    else ""
  validTz := fun tz => tz = "Europe/Moscow"
  slug := fun s => s
  datePart := fun t => if t = 3000 then "2031-01-15" else "2030-06-01"
  sheetLink := fun n => "https://sheets.example/" ++ n
  lower := fun s => s

/-- A persisted active event with a parseable future start (instant 2000). -/
def demoEventA : Event :=
  { event_id := "2030-06-01__demo"
    title := "Demo"
    description := ""
    datetime_local := "2030-06-01T18:00:00+03:00"
    timezone := "Europe/Moscow"
    zoom_url := ""
    pay_url := ""
    sheet_name := "2030-06-01__demo"
    sheet_link := ""
    status := "active"
    created_at := "2026-10-01T00:00:00+03:00"
    updated_at := "2026-10-01T00:00:00+03:00" }

/-- A non-cancelled event whose stored timestamp does not parse. -/
def demoEventBad : Event :=
  { demoEventA with event_id := "bad", datetime_local := "not-a-date" }

/-- A cancelled event. -/
def demoEventCancelled : Event :=
  { demoEventA with event_id := "gone", status := "cancelled" }

/-- Shared helper: `classify_status` yields `cancelled` exactly when the
persisted status is `cancelled`. -/
theorem classify_cancelled_iff (env : Env) (now : Int) (e : Event) :
    classify_status env now e = "cancelled" ↔ e.status = "cancelled" := by
  unfold classify_status event_local_datetime
  by_cases hc : e.status = "cancelled"
  · simp [hc]
  · simp only [hc, if_false]
    cases hp : parsed_datetime env e with
    | none =>
      by_cases hz : e.status = ""
      · simp [hz, hc]
      · simp [hz, hc]
    | some t =>
      by_cases ht : t ≤ now <;> simp [ht, hc]

/-- C1: classification is `cancelled` exactly on persisted cancellation, and
otherwise, for a parseable start instant, `past` iff the start is at or before
`now` and `active` iff `now` is strictly before the start. -/
theorem classify_status_spec (env : Env) (now : Int) (e : Event) :
    (classify_status env now e = "cancelled" ↔ e.status = "cancelled") ∧
    (∀ t : Int, e.status ≠ "cancelled" → parsed_datetime env e = some t →
      (classify_status env now e = "past" ↔ t ≤ now) ∧
      (classify_status env now e = "active" ↔ now < t)) := by
  refine ⟨classify_cancelled_iff env now e, ?_⟩
  intro t hc hp
  unfold classify_status event_local_datetime
  rw [hp]
  simp only [hc, if_false]
  by_cases ht : t ≤ now
  · simp [ht]
  · simp [ht]
    omega

/-- Witness for C1 at a concrete event: `demoEventA` starts at instant 2000,
so at `now = 1000` it is active and not past. -/
theorem classify_status_spec_witness :
    (classify_status demoEnv 1000 demoEventA = "active" ↔ (1000 : Int) < 2000) ∧
    (classify_status demoEnv 1000 demoEventA = "past" ↔ (2000 : Int) ≤ 1000) := by
  have h := (classify_status_spec demoEnv 1000 demoEventA).2 2000
    (by decide) (by decide)
  exact ⟨h.2, h.1⟩

/-- C10: a non-cancelled event without a parseable start instant keeps its
persisted status under `classify_status` (defaulting to `active` on the empty
string), independently of the clock, and `_auto_update_status` never touches
it. -/
theorem classify_unparseable_status (env : Env) (now now' : Int)
    (nowIso : String) (e : Event) (hc : e.status ≠ "cancelled")
    (hp : parsed_datetime env e = none) :
    classify_status env now e = (if e.status = "" then "active" else e.status) ∧
    classify_status env now e = classify_status env now' e ∧
    auto_update_event env now nowIso e = e := by
  unfold classify_status auto_update_event event_local_datetime
  rw [hp]
  simp [hc]

/-- Witness for C10: `demoEventBad` stores `"not-a-date"`, stays `active` at
every clock value and is untouched by the auto-update pass. -/
theorem classify_unparseable_status_witness :
    classify_status demoEnv 1000 demoEventBad =
      (if demoEventBad.status = "" then "active" else demoEventBad.status) ∧
    classify_status demoEnv 1000 demoEventBad =
      classify_status demoEnv 999999 demoEventBad ∧
    auto_update_event demoEnv 1000 "iso" demoEventBad = demoEventBad :=
  classify_unparseable_status demoEnv 1000 999999 "iso" demoEventBad
    (by decide) (by decide)

/-- The demo store: one persisted-active, future-dated event which is also the
current event. -/
def demoStore : Store :=
  { events := [demoEventA], current_event_id := some "2030-06-01__demo" }

/-- C2 (counterexample): creating a new event over a store holding a
non-cancelled event with a *future* start does not leave the prior event at
`past`: the `set_current_event` call inside `create_event` re-runs
`_auto_update_status`, which flips the force-pasted prior event straight back
to `active` (and `classify` would call it `active` regardless of the persisted
value), so two events classify — and persist — as `active` immediately after
the create. -/
theorem create_event_two_active_bug :
    let res := create_event demoEnv 1000 "2026-10-12T00:00:00+03:00" demoStore
      "New Webinar" "" 3000 "Europe/Moscow" "" ""
    ((res.2.events.find? (fun e => e.event_id == "2030-06-01__demo")).map
        (fun e => e.status) = some "active") ∧
    res.2.events.countP
        (fun e => classify_status demoEnv 1000 e == "active") = 2 ∧
    res.2.current_event_id = some "2031-01-15__New Webinar" := by
  decide

/-- C7 (counterexample): `update_event` does not reject either forbidden
mutation.  Setting `event_id` on update silently renames the event, and
setting `status` to `active` on a cancelled event silently un-cancels it —
both calls succeed instead of raising. -/
theorem update_event_silent_apply_cex :
    ((update_event demoEnv 1000 "iso" demoStore "2030-06-01__demo"
        [("event_id", some "hacked")]).map (fun p => p.1.event_id)
      = some "hacked") ∧
    ((update_event demoEnv 1000 "iso"
        { events := [demoEventCancelled], current_event_id := none } "gone"
        [("status", some "active")]).map (fun p => p.1.status)
      = some "active") := by
  decide

/-- C7 (amended): `update_event` merges any provided non-`None` value into an
existing attribute without validation: a provided `event_id` is applied (the
call succeeds and the returned record carries the new id), and a cancelled
event is silently un-cancelled by a provided `status`; `updated_at` is bumped
in both cases. -/
theorem update_event_silent_merge (env : Env) (now : Int) (nowIso : String)
    (s : Store) (eid newId : String) (e0 : Event)
    (hfind : s.events.find? (fun e => e.event_id == eid) = some e0) :
    (∃ e1 s', update_event env now nowIso s eid [("event_id", some newId)]
        = some (e1, s') ∧ e1.event_id = newId ∧ e1.updated_at = nowIso) ∧
    (e0.status = "cancelled" →
      ∃ e1 s', update_event env now nowIso s eid [("status", some "active")]
        = some (e1, s') ∧ e1.status = "active" ∧
        classify_status env now e1 ≠ "cancelled") := by
  constructor
  · simp only [update_event, hfind]
    refine ⟨_, _, rfl, ?_, ?_⟩ <;> rfl
  · intro _
    simp only [update_event, hfind]
    refine ⟨_, _, rfl, rfl, ?_⟩
    rw [ne_eq, classify_cancelled_iff]
    show ¬ ("active" = "cancelled")
    decide

/-- Witness for the amended C7 at the demo store: the cancelled demo event is
found, renamed and un-cancelled by concrete `update_event` calls. -/
theorem update_event_silent_merge_witness :
    (∃ e1 s', update_event demoEnv 1000 "iso"
        { events := [demoEventCancelled], current_event_id := none } "gone"
        [("event_id", some "renamed")] = some (e1, s') ∧
        e1.event_id = "renamed" ∧ e1.updated_at = "iso") ∧
    (demoEventCancelled.status = "cancelled" →
      ∃ e1 s', update_event demoEnv 1000 "iso"
        { events := [demoEventCancelled], current_event_id := none } "gone"
        [("status", some "active")] = some (e1, s') ∧ e1.status = "active" ∧
        classify_status demoEnv 1000 e1 ≠ "cancelled") := by
  have h := update_event_silent_merge demoEnv 1000 "iso"
    { events := [demoEventCancelled], current_event_id := none }
    "gone" "renamed" demoEventCancelled (by decide)
  exact ⟨h.1, fun _ => h.2 (by decide)⟩

/-! ## Scheduler model (src/scheduler.py, src/reminders.py)

The apscheduler registry becomes a list of `(job id, fire instant)` records
(`add_job` with `replace_existing=True` replaces in place or appends); the
telegram `job_queue` becomes a list of named jobs with their data payload
(`run_once` appends, `schedule_removal` filters). -/

/-- Python truthiness for an optional string (`if not x`). -/
def pyTruthy : Option String → Bool
  | none => false
  | some s => !(s == "")

/-- `str(x)` over the option, with `""` never reached on truthy values. -/
def optStr : Option String → String
  | none => ""
  | some s => s

/-- Python `str.startswith` on character sequences. -/
def pyStartswith (p s : String) : Bool := p.data.isPrefixOf s.data

/-- One apscheduler job of the global scheduler. -/
structure SchedJob where
  id : String
  runAt : Int
deriving DecidableEq, Repr

/-- `_clear_event_jobs` (src/scheduler.py:91-94): remove every job whose id is
truthy and starts with `event_id + "::"`. -/
def clear_event_jobs (event_id : String) (jobs : List SchedJob) : List SchedJob :=
  jobs.filter (fun j => !(!(j.id == "") && pyStartswith (event_id ++ "::") j.id))

/-- apscheduler `add_job(..., replace_existing=True)`: replace the job with
the same id in place, else append. -/
def replace_or_append : List SchedJob → String → Int → List SchedJob
  | [], jid, t => [⟨jid, t⟩]
  | j :: rest, jid, t =>
    if j.id = jid then ⟨jid, t⟩ :: rest else j :: replace_or_append rest jid t

/-- `_schedule_job` (src/scheduler.py:97-107): skip if the fire time is not in
the future, else idempotently add. -/
def schedule_job (now : Int) (jid : String) (runAt : Int)
    (jobs : List SchedJob) : List SchedJob :=
  if runAt ≤ now then jobs else replace_or_append jobs jid runAt

/-- One telegram `job_queue` job (personal reminders). -/
structure UserJob where
  name : String
  data_chat : Option Int
  data_event : Option String
  data_label : Option String
  runAt : Int
deriving DecidableEq, Repr

/-- `_user_job_prefix` (src/reminders.py:30-31). -/
def user_job_prefix_str (event_id : String) : String :=
  "event::" ++ event_id ++ "::user::"

/-- `_user_job_name` (src/reminders.py:34-35). -/
def user_job_name (event_id : String) (chat : Int) (label : String) : String :=
  user_job_prefix_str event_id ++ toString chat ++ "::" ++ label

/-- The removal predicate of `_cancel_event_jobs` (src/reminders.py:82-99). -/
def user_removal_match (event_id : Option String) (chat_id : Option Int)
    (j : UserJob) : Bool :=
  match event_id with
  | some eid =>
    match chat_id with
    | some c =>
      pyStartswith (user_job_prefix_str eid ++ toString c ++ "::") j.name ||
        (j.data_event == some eid && j.data_chat == some c)
    | none =>
      pyStartswith (user_job_prefix_str eid) j.name || j.data_event == some eid
  | none => pyStartswith "event::" j.name

/-- `_cancel_event_jobs`: schedule removal of every matching job. -/
def cancel_user_jobs (event_id : Option String) (chat_id : Option Int)
    (q : List UserJob) : List UserJob :=
  q.filter (fun j => !user_removal_match event_id chat_id j)

/-- `_schedule_event_jobs_for_chat` (src/reminders.py:102-123): `day` at
start - 24h and `hour` at start - 1h, each skipped when not in the future. -/
def schedule_event_jobs_for_chat (event_id : String) (chat : Int)
    (event_dt now : Int) (q : List UserJob) : List UserJob :=
  let q1 :=
    if event_dt - 86400 ≤ now then q
    else q ++ [⟨user_job_name event_id chat "day", some chat, some event_id,
      some "day", event_dt - 86400⟩]
  if event_dt - 3600 ≤ now then q1
  else q1 ++ [⟨user_job_name event_id chat "hour", some chat, some event_id,
    some "hour", event_dt - 3600⟩]

/-- `replan_event_user_reminders` (src/reminders.py:189-210): cancel all user
jobs of the event, then re-schedule both labels for every roster chat when the
event is still active with a parseable future-relative start. -/
def replan_event_user_reminders (env : Env) (now : Int) (nowIso : String)
    (roster : List Int) (event_id : String) (s : Store) (q : List UserJob) :
    Store × List UserJob :=
  let q1 := cancel_user_jobs (some event_id) none q
  match get_event env now nowIso s event_id with
  | (none, s') => (s', q1)
  | (some e, s') =>
    if classify_status env now e ≠ "active" then (s', q1)
    else
      match event_local_datetime env e with
      | none => (s', q1)
      | some dt =>
        (s', roster.foldl
          (fun acc c => schedule_event_jobs_for_chat event_id c dt now acc) q1)

/-- The settings projection read by `schedule_all_reminders`. -/
structure Settings where
  current_event_datetime : Option String
  current_event_id : Option String
deriving Repr

/-- The mutable state threaded through a `plan` call: the events document, the
apscheduler registry and the telegram job queue. -/
structure PlanState where
  store : Store
  sched : List SchedJob
  userq : List UserJob
deriving Repr

/-- `schedule_all_reminders` (src/scheduler.py:114-189), the `plan(event_id)`
operation of the spec.  The clock is sampled repeatedly in the source; a
single call sees one instant `now`.  Settings and the roster are inputs; the
sheet-backed roster is only read, never written, by this path. -/
def schedule_all_reminders (env : Env) (now : Int) (nowIso : String)
    (settings : Settings) (roster : List Int) (st : PlanState) : PlanState :=
  if !pyTruthy settings.current_event_datetime ||
      !pyTruthy settings.current_event_id then
    { st with sched := [], userq := cancel_user_jobs none none st.userq }
  else
    let eid := optStr settings.current_event_id
    match env.parse (optStr settings.current_event_datetime) TIMEZONE with
    | none =>
      { st with sched := [],
                userq := cancel_user_jobs (some eid) none st.userq }
    | some event_dt =>
      let ge := get_event env now nowIso st.store eid
      if (match ge.1 with
          | some e => classify_status env now e == "cancelled"
          | none => false) then
        { store := ge.2, sched := clear_event_jobs eid st.sched,
          userq := cancel_user_jobs (some eid) none st.userq }
      else if event_dt ≤ now then
        { store := ge.2, sched := clear_event_jobs eid st.sched,
          userq := cancel_user_jobs (some eid) none st.userq }
      else
        let sched0 := clear_event_jobs eid st.sched
        let sched1 := schedule_job now (eid ++ "::day_before") (event_dt - 86400) sched0
        let sched2 := schedule_job now (eid ++ "::hour_before") (event_dt - 3600) sched1
        let sched3 := schedule_job now (eid ++ "::start") event_dt sched2
        let sched4 := schedule_job now (eid ++ "::feedback") (event_dt + 86400) sched3
        let ru := replan_event_user_reminders env now nowIso roster eid ge.2 st.userq
        { store := ru.1, sched := sched4, userq := ru.2 }

/-! ## Helper lemmas for the scheduler proofs -/

theorem pyStartswith_append (p s : String) : pyStartswith p (p ++ s) = true := by
  unfold pyStartswith
  rw [show (p ++ s).data = p.data ++ s.data from String.data_append p s,
    List.isPrefixOf_iff_prefix]
  exact List.prefix_append _ _

theorem str_append_cancel {p a b : String} (h : p ++ a = p ++ b) : a = b := by
  have hd := congrArg String.data h
  rw [String.data_append, String.data_append] at hd
  exact String.ext (List.append_cancel_left hd)

theorem str_append_ne_empty (p s : String) (hs : s ≠ "") : p ++ s ≠ "" := by
  intro h
  have hd := congrArg String.data h
  rw [String.data_append] at hd
  exact hs (String.ext (List.append_eq_nil.mp hd).2)

theorem pyStartswith_key (eid s : String) :
    pyStartswith (eid ++ "::") (eid ++ ("::" ++ s)) = true := by
  rw [← String.append_assoc]
  exact pyStartswith_append _ _

theorem key_ne (eid : String) {a b : String} (hab : a ≠ b) :
    eid ++ a ≠ eid ++ b :=
  fun h => hab (str_append_cancel h)

theorem pyStartswith_nil (p : String) (hp : p ≠ "") :
    pyStartswith p "" = false := by
  unfold pyStartswith
  cases h : p.data with
  | nil => exact absurd (String.ext h) hp
  | cons c cs => rfl

theorem event_key_ne_empty (eid s : String) : eid ++ ("::" ++ s) ≠ "" := by
  have h : ("::" ++ s : String) ≠ "" := by
    intro h
    have hd := congrArg String.data h
    rw [String.data_append] at hd
    exact absurd (List.append_eq_nil.mp hd).1 (by decide)
  exact str_append_ne_empty eid _ h

theorem colon_ne_empty (eid : String) : eid ++ "::" ≠ "" :=
  str_append_ne_empty eid "::" (by decide)

theorem auto_update_event_id (env : Env) (now : Int) (nowIso : String)
    (e : Event) : (auto_update_event env now nowIso e).event_id = e.event_id := by
  unfold auto_update_event
  split
  · rfl
  · split
    · rfl
    · dsimp only
      split <;> split <;> rfl

theorem auto_update_event_eld (env : Env) (now : Int) (nowIso : String)
    (e : Event) : event_local_datetime env (auto_update_event env now nowIso e)
      = event_local_datetime env e := by
  unfold auto_update_event
  split
  · rfl
  · split
    · rfl
    · dsimp only
      split <;> split <;> rfl

theorem auto_update_event_classify (env : Env) (now : Int) (nowIso : String)
    (e : Event) : classify_status env now (auto_update_event env now nowIso e)
      = classify_status env now e := by
  by_cases hc : e.status = "cancelled"
  · rw [show auto_update_event env now nowIso e = e from by
      unfold auto_update_event; rw [if_pos hc]]
  · unfold auto_update_event
    rw [if_neg hc]
    cases hp : event_local_datetime env e with
    | none => rfl
    | some t =>
      dsimp only
      unfold classify_status
      by_cases hst : e.status ≠ (if t ≤ now then "past" else "active")
      · rw [if_pos hst]
        have hpd : event_local_datetime env
            { e with status := if t ≤ now then "past" else "active",
                     updated_at := nowIso } = event_local_datetime env e := rfl
        rw [hpd, hp]
        by_cases ht : t ≤ now <;> simp [ht, hc]
      · rw [if_neg hst]

/-- Observation of an event list used by scheduler decisions: the classify
result and the parsed instant of the first event carrying the id. -/
def event_obs (env : Env) (now : Int) (event_id : String) (l : List Event) :
    Option (String × Option Int) :=
  (l.find? (fun e => e.event_id == event_id)).map
    (fun e => (classify_status env now e, event_local_datetime env e))

theorem event_obs_auto (env : Env) (now : Int) (nowIso : String)
    (event_id : String) (l : List Event) :
    event_obs env now event_id (auto_update_status env now nowIso l)
      = event_obs env now event_id l := by
  unfold event_obs auto_update_status
  rw [List.find?_map]
  have hpred : ((fun e : Event => e.event_id == event_id) ∘
      auto_update_event env now nowIso) = (fun e => e.event_id == event_id) := by
    funext e
    simp [Function.comp, auto_update_event_id]
  rw [hpred, Option.map_map]
  congr 1
  funext e
  simp [Function.comp, auto_update_event_classify, auto_update_event_eld]

theorem get_event_fst_obs (env : Env) (now : Int) (nowIso : String)
    (s : Store) (event_id : String) :
    ((get_event env now nowIso s event_id).1).map
        (fun e => (classify_status env now e, event_local_datetime env e))
      = event_obs env now event_id s.events := by
  unfold get_event
  split
  · exact event_obs_auto env now nowIso event_id s.events
  · rename_i h
    unfold event_obs
    rw [Option.not_isSome_iff_eq_none.mp h]

theorem get_event_snd_obs (env : Env) (now : Int) (nowIso : String)
    (s : Store) (event_id eid' : String) :
    event_obs env now eid' ((get_event env now nowIso s event_id).2).events
      = event_obs env now eid' s.events := by
  unfold get_event
  split
  · exact event_obs_auto env now nowIso eid' s.events
  · rfl

theorem replan_fst (env : Env) (now : Int) (nowIso : String)
    (roster : List Int) (event_id : String) (s : Store) (q : List UserJob) :
    (replan_event_user_reminders env now nowIso roster event_id s q).1
      = (get_event env now nowIso s event_id).2 := by
  unfold replan_event_user_reminders
  rcases h : get_event env now nowIso s event_id with ⟨e?, s'⟩
  cases e?
  · rfl
  · dsimp only
    split <;> first
      | rfl
      | (split <;> rfl)

/-- The four broadcast jobs a successful `plan` pass appends, each dropped
when its fire time is not in the future. -/
def added_jobs (now : Int) (eid : String) (dt : Int) : List SchedJob :=
  (if dt - 86400 ≤ now then [] else [⟨eid ++ "::day_before", dt - 86400⟩]) ++
  (if dt - 3600 ≤ now then [] else [⟨eid ++ "::hour_before", dt - 3600⟩]) ++
  (if dt ≤ now then [] else [⟨eid ++ "::start", dt⟩]) ++
  (if dt + 86400 ≤ now then [] else [⟨eid ++ "::feedback", dt + 86400⟩])

theorem mem_ite_singleton {c : Prop} [Decidable c] {x j : SchedJob}
    (h : j ∈ (if c then ([] : List SchedJob) else [x])) : j = x := by
  split at h
  · cases h
  · simpa using h

theorem added_jobs_mem_id {now dt : Int} {eid : String} {j : SchedJob}
    (hj : j ∈ added_jobs now eid dt) :
    j.id = eid ++ "::day_before" ∨ j.id = eid ++ "::hour_before" ∨
    j.id = eid ++ "::start" ∨ j.id = eid ++ "::feedback" := by
  unfold added_jobs at hj
  rcases List.mem_append.mp hj with h | h
  · rcases List.mem_append.mp h with h | h
    · rcases List.mem_append.mp h with h | h
      · exact Or.inl (congrArg SchedJob.id (mem_ite_singleton h))
      · exact Or.inr (Or.inl (congrArg SchedJob.id (mem_ite_singleton h)))
    · exact Or.inr (Or.inr (Or.inl (congrArg SchedJob.id (mem_ite_singleton h))))
  · exact Or.inr (Or.inr (Or.inr (congrArg SchedJob.id (mem_ite_singleton h))))

theorem mem_clear_no_key {eid : String} {l : List SchedJob} {j : SchedJob}
    (hm : j ∈ clear_event_jobs eid l) (s : String) :
    j.id ≠ eid ++ ("::" ++ s) := by
  intro hid
  have hp := (List.mem_filter.mp hm).2
  rw [hid, pyStartswith_key] at hp
  rw [show ((eid ++ ("::" ++ s) : String) == "") = false from
    beq_eq_false_iff_ne.mpr (event_key_ne_empty eid s)] at hp
  simp at hp

theorem clear_clear (eid : String) (l : List SchedJob) :
    clear_event_jobs eid (clear_event_jobs eid l) = clear_event_jobs eid l := by
  simp [clear_event_jobs, List.filter_filter]

theorem clear_append (eid : String) (l l' : List SchedJob) :
    clear_event_jobs eid (l ++ l')
      = clear_event_jobs eid l ++ clear_event_jobs eid l' :=
  List.filter_append l l'

theorem clear_pred_false (eid s : String) {j : SchedJob}
    (h : j.id = eid ++ ("::" ++ s)) :
    (!(!(j.id == "") && pyStartswith (eid ++ "::") j.id)) = false := by
  rw [h, pyStartswith_key,
    show ((eid ++ ("::" ++ s) : String) == "") = false from
      beq_eq_false_iff_ne.mpr (event_key_ne_empty eid s)]
  rfl

theorem clear_added (eid : String) (now dt : Int) :
    clear_event_jobs eid (added_jobs now eid dt) = [] := by
  rw [clear_event_jobs, List.filter_eq_nil_iff]
  intro j hj hpred
  rcases added_jobs_mem_id hj with h | h | h | h
  · simp [clear_pred_false eid "day_before" h] at hpred
  · simp [clear_pred_false eid "hour_before" h] at hpred
  · simp [clear_pred_false eid "start" h] at hpred
  · simp [clear_pred_false eid "feedback" h] at hpred

theorem filter_clear_nil (eid : String) (l : List SchedJob) :
    (clear_event_jobs eid l).filter
      (fun j => pyStartswith (eid ++ "::") j.id) = [] := by
  rw [List.filter_eq_nil_iff]
  intro j hj hpre
  have hkeep := (List.mem_filter.mp hj).2
  by_cases hid : j.id = ""
  · rw [hid, pyStartswith_nil _ (colon_ne_empty eid)] at hpre
    cases hpre
  · rw [show (j.id == "") = false from beq_eq_false_iff_ne.mpr hid, hpre] at hkeep
    simp at hkeep

theorem filter_added_self (eid : String) (now dt : Int) :
    (added_jobs now eid dt).filter
      (fun j => pyStartswith (eid ++ "::") j.id) = added_jobs now eid dt := by
  rw [List.filter_eq_self]
  intro j hj
  rcases added_jobs_mem_id hj with h | h | h | h <;>
    · rw [h]
      exact pyStartswith_key eid _

theorem replace_or_append_not_mem {l : List SchedJob} {jid : String} (t : Int)
    (h : ∀ j ∈ l, j.id ≠ jid) : replace_or_append l jid t = l ++ [⟨jid, t⟩] := by
  induction l with
  | nil => rfl
  | cons j rest ih =>
    rw [replace_or_append, if_neg (h j (List.mem_cons_self j rest)),
      List.cons_append]
    rw [ih (fun j' hj' => h j' (List.mem_cons_of_mem _ hj'))]

theorem schedule_job_not_mem {l : List SchedJob} {jid : String} (now t : Int)
    (h : ∀ j ∈ l, j.id ≠ jid) :
    schedule_job now jid t l
      = l ++ (if t ≤ now then [] else [⟨jid, t⟩]) := by
  unfold schedule_job
  split
  · simp
  · exact replace_or_append_not_mem t h

theorem schedule_job_append_not_mem {l a : List SchedJob} {jid : String}
    (now t : Int) (hl : ∀ j ∈ l, j.id ≠ jid) (ha : ∀ j ∈ a, j.id ≠ jid) :
    schedule_job now jid t (l ++ a)
      = l ++ (a ++ (if t ≤ now then [] else [⟨jid, t⟩])) := by
  rw [schedule_job_not_mem now t (by
    intro j hj
    rcases List.mem_append.mp hj with h | h
    · exact hl j h
    · exact ha j h), List.append_assoc]

theorem sched_pipeline_eq (now : Int) (eid : String) (dt : Int)
    (base : List SchedJob) :
    schedule_job now (eid ++ "::feedback") (dt + 86400)
      (schedule_job now (eid ++ "::start") dt
        (schedule_job now (eid ++ "::hour_before") (dt - 3600)
          (schedule_job now (eid ++ "::day_before") (dt - 86400)
            (clear_event_jobs eid base))))
      = clear_event_jobs eid base ++ added_jobs now eid dt := by
  have hd : ∀ j ∈ clear_event_jobs eid base, j.id ≠ eid ++ "::day_before" :=
    fun j hj => mem_clear_no_key hj "day_before"
  have hh : ∀ j ∈ clear_event_jobs eid base, j.id ≠ eid ++ "::hour_before" :=
    fun j hj => mem_clear_no_key hj "hour_before"
  have hs : ∀ j ∈ clear_event_jobs eid base, j.id ≠ eid ++ "::start" :=
    fun j hj => mem_clear_no_key hj "start"
  have hf : ∀ j ∈ clear_event_jobs eid base, j.id ≠ eid ++ "::feedback" :=
    fun j hj => mem_clear_no_key hj "feedback"
  rw [schedule_job_not_mem now (dt - 86400) hd]
  rw [schedule_job_append_not_mem now (dt - 3600) hh (by
    intro j hj
    rw [congrArg SchedJob.id (mem_ite_singleton hj)]
    exact key_ne eid (by decide))]
  rw [schedule_job_append_not_mem now dt hs (by
    intro j hj
    rcases List.mem_append.mp hj with h | h <;>
      rw [congrArg SchedJob.id (mem_ite_singleton h)] <;>
      exact key_ne eid (by decide))]
  rw [schedule_job_append_not_mem now (dt + 86400) hf (by
    intro j hj
    rcases List.mem_append.mp hj with h | h
    · rcases List.mem_append.mp h with h' | h' <;>
        rw [congrArg SchedJob.id (mem_ite_singleton h')] <;>
        exact key_ne eid (by decide)
    · rw [congrArg SchedJob.id (mem_ite_singleton h)]
      exact key_ne eid (by decide))]
  unfold added_jobs
  simp [List.append_assoc]

/-- The cancelled test `plan` makes on the observed event. -/
def obs_cancelled : Option (String × Option Int) → Bool
  | some (c, _) => c == "cancelled"
  | none => false

/-- The apscheduler registry produced by one `plan` pass, as a function of the
decision observation and the incoming registry. -/
def plan_sched_fun (env : Env) (now : Int) (settings : Settings)
    (o : Option (String × Option Int)) (sched : List SchedJob) :
    List SchedJob :=
  if !pyTruthy settings.current_event_datetime ||
      !pyTruthy settings.current_event_id then []
  else
    let eid := optStr settings.current_event_id
    match env.parse (optStr settings.current_event_datetime) TIMEZONE with
    | none => []
    | some dt =>
      if obs_cancelled o then clear_event_jobs eid sched
      else if dt ≤ now then clear_event_jobs eid sched
      else clear_event_jobs eid sched ++ added_jobs now eid dt

theorem plan_sched_char (env : Env) (now : Int) (nowIso : String)
    (settings : Settings) (roster : List Int) (st : PlanState) :
    (schedule_all_reminders env now nowIso settings roster st).sched
      = plan_sched_fun env now settings
          (event_obs env now (optStr settings.current_event_id)
            st.store.events)
          st.sched := by
  unfold schedule_all_reminders plan_sched_fun
  split
  · rfl
  · dsimp only
    cases hp : env.parse (optStr settings.current_event_datetime) TIMEZONE with
    | none => rfl
    | some dt =>
      dsimp only
      have hcond : (match (get_event env now nowIso st.store
            (optStr settings.current_event_id)).1 with
          | some e => classify_status env now e == "cancelled"
          | none => false)
          = obs_cancelled (event_obs env now
              (optStr settings.current_event_id) st.store.events) := by
        rw [← get_event_fst_obs env now nowIso st.store
          (optStr settings.current_event_id)]
        cases (get_event env now nowIso st.store
          (optStr settings.current_event_id)).1 <;> rfl
      rw [hcond]
      split
      · rfl
      · split
        · rfl
        · exact sched_pipeline_eq now (optStr settings.current_event_id) dt
            st.sched

theorem plan_store_obs (env : Env) (now : Int) (nowIso : String)
    (settings : Settings) (roster : List Int) (st : PlanState)
    (eid' : String) :
    event_obs env now eid'
        (schedule_all_reminders env now nowIso settings roster st).store.events
      = event_obs env now eid' st.store.events := by
  unfold schedule_all_reminders
  split
  · rfl
  · dsimp only
    cases hp : env.parse (optStr settings.current_event_datetime) TIMEZONE with
    | none => rfl
    | some dt =>
      dsimp only
      split
      · exact get_event_snd_obs env now nowIso st.store _ eid'
      · split
        · exact get_event_snd_obs env now nowIso st.store _ eid'
        · rw [replan_fst, get_event_snd_obs, get_event_snd_obs]

theorem plan_sched_fun_idem (env : Env) (now : Int) (settings : Settings)
    (o : Option (String × Option Int)) (sched : List SchedJob) :
    plan_sched_fun env now settings o (plan_sched_fun env now settings o sched)
      = plan_sched_fun env now settings o sched := by
  unfold plan_sched_fun
  split
  · rfl
  · dsimp only
    cases hp : env.parse (optStr settings.current_event_datetime) TIMEZONE with
    | none => rfl
    | some dt =>
      dsimp only
      split
      · exact clear_clear _ _
      · split
        · exact clear_clear _ _
        · rw [clear_append, clear_clear, clear_added, List.append_nil]

theorem added_jobs_ids_nodup (now dt : Int) (eid : String) :
    ((added_jobs now eid dt).map (fun j => j.id)).Nodup ∧
    (added_jobs now eid dt).length ≤ 4 := by
  have d1 : (eid ++ "::day_before" : String) ≠ eid ++ "::hour_before" :=
    key_ne eid (by decide)
  have d2 : (eid ++ "::day_before" : String) ≠ eid ++ "::start" :=
    key_ne eid (by decide)
  have d3 : (eid ++ "::day_before" : String) ≠ eid ++ "::feedback" :=
    key_ne eid (by decide)
  have d4 : (eid ++ "::hour_before" : String) ≠ eid ++ "::start" :=
    key_ne eid (by decide)
  have d5 : (eid ++ "::hour_before" : String) ≠ eid ++ "::feedback" :=
    key_ne eid (by decide)
  have d6 : (eid ++ "::start" : String) ≠ eid ++ "::feedback" :=
    key_ne eid (by decide)
  unfold added_jobs
  split_ifs <;> simp_all

/-- C3: re-planning is idempotent — running `plan` twice in a row (same
instant, same settings, same roster) leaves the apscheduler registry exactly
as after the first run, and the registry then holds at most four jobs for the
planned event, with pairwise-distinct job keys. -/
theorem plan_idempotent (env : Env) (now : Int) (nowIso : String)
    (settings : Settings) (roster : List Int) (st : PlanState) :
    (schedule_all_reminders env now nowIso settings roster
        (schedule_all_reminders env now nowIso settings roster st)).sched
      = (schedule_all_reminders env now nowIso settings roster st).sched ∧
    ((((schedule_all_reminders env now nowIso settings roster st).sched).filter
        (fun j => pyStartswith (optStr settings.current_event_id ++ "::") j.id)).map
          (fun j => j.id)).Nodup ∧
    (((schedule_all_reminders env now nowIso settings roster st).sched).filter
        (fun j => pyStartswith (optStr settings.current_event_id ++ "::") j.id)).length
      ≤ 4 := by
  refine ⟨?_, ?_⟩
  · rw [plan_sched_char, plan_sched_char, plan_store_obs]
    exact plan_sched_fun_idem env now settings _ st.sched
  · rw [plan_sched_char]
    unfold plan_sched_fun
    split
    · simp
    · dsimp only
      cases hp : env.parse (optStr settings.current_event_datetime) TIMEZONE with
      | none => simp
      | some dt =>
        dsimp only
        split
        · rw [filter_clear_nil]
          simp
        · split
          · rw [filter_clear_nil]
            simp
          · rw [List.filter_append, filter_clear_nil, filter_added_self,
              List.nil_append]
            have h := added_jobs_ids_nodup now dt (optStr settings.current_event_id)
            exact ⟨h.1, h.2⟩

theorem added_ids_mem (now dt : Int) (eid : String) :
    ((eid ++ "::day_before") ∈ (added_jobs now eid dt).map (fun j => j.id) ↔
      now < dt - 86400) ∧
    ((eid ++ "::hour_before") ∈ (added_jobs now eid dt).map (fun j => j.id) ↔
      now < dt - 3600) ∧
    ((eid ++ "::start") ∈ (added_jobs now eid dt).map (fun j => j.id) ↔
      now < dt) ∧
    ((eid ++ "::feedback") ∈ (added_jobs now eid dt).map (fun j => j.id) ↔
      now < dt + 86400) := by
  have d1 : (eid ++ "::day_before" : String) ≠ eid ++ "::hour_before" :=
    key_ne eid (by decide)
  have d2 : (eid ++ "::day_before" : String) ≠ eid ++ "::start" :=
    key_ne eid (by decide)
  have d3 : (eid ++ "::day_before" : String) ≠ eid ++ "::feedback" :=
    key_ne eid (by decide)
  have d4 : (eid ++ "::hour_before" : String) ≠ eid ++ "::start" :=
    key_ne eid (by decide)
  have d5 : (eid ++ "::hour_before" : String) ≠ eid ++ "::feedback" :=
    key_ne eid (by decide)
  have d6 : (eid ++ "::start" : String) ≠ eid ++ "::feedback" :=
    key_ne eid (by decide)
  have d1' := Ne.symm d1
  have d2' := Ne.symm d2
  have d3' := Ne.symm d3
  have d4' := Ne.symm d4
  have d5' := Ne.symm d5
  have d6' := Ne.symm d6
  unfold added_jobs
  split_ifs <;>
    simp_all <;>
    omega

/-- C5: re-planning an active event whose start is in the future schedules
each of the four broadcast jobs exactly when that job's own fire time is still
in the future; in particular, when the start is less than one hour away, only
`at_start` and `feedback` are scheduled, in this order, among the event's
jobs. -/
theorem near_start_replan_jobs (env : Env) (now : Int) (nowIso : String)
    (settings : Settings) (roster : List Int) (st : PlanState)
    (iso eid : String) (dt : Int) (e0 : Event)
    (hiso : settings.current_event_datetime = some iso) (hisone : iso ≠ "")
    (hid : settings.current_event_id = some eid) (hidne : eid ≠ "")
    (hparse : env.parse iso TIMEZONE = some dt)
    (hfind : st.store.events.find? (fun e => e.event_id == eid) = some e0)
    (hact : classify_status env now e0 = "active")
    (hfut : now < dt) :
    ((eid ++ "::day_before") ∈
        ((schedule_all_reminders env now nowIso settings roster st).sched).map
          (fun j => j.id) ↔ now < dt - 86400) ∧
    ((eid ++ "::hour_before") ∈
        ((schedule_all_reminders env now nowIso settings roster st).sched).map
          (fun j => j.id) ↔ now < dt - 3600) ∧
    ((eid ++ "::start") ∈
        ((schedule_all_reminders env now nowIso settings roster st).sched).map
          (fun j => j.id) ↔ now < dt) ∧
    ((eid ++ "::feedback") ∈
        ((schedule_all_reminders env now nowIso settings roster st).sched).map
          (fun j => j.id) ↔ now < dt + 86400) ∧
    (dt < now + 3600 →
      ((((schedule_all_reminders env now nowIso settings roster st).sched).filter
          (fun j => pyStartswith (eid ++ "::") j.id)).map (fun j => j.id))
        = [eid ++ "::start", eid ++ "::feedback"]) := by
  have hoptid : optStr settings.current_event_id = eid := by rw [hid]; rfl
  have hobs : event_obs env now eid st.store.events
      = some (classify_status env now e0, event_local_datetime env e0) := by
    unfold event_obs
    rw [hfind]
    rfl
  have hb1 : (iso == "") = false := beq_eq_false_iff_ne.mpr hisone
  have hb2 : (eid == "") = false := beq_eq_false_iff_ne.mpr hidne
  have hnle : ¬ dt ≤ now := by omega
  have hsched := plan_sched_char env now nowIso settings roster st
  rw [hoptid, hobs, hact] at hsched
  unfold plan_sched_fun at hsched
  rw [hiso, hid] at hsched
  simp only [pyTruthy, optStr, hb1, hb2, Bool.not_false, Bool.not_true,
    Bool.or_self, Bool.false_eq_true, if_false, hparse, obs_cancelled,
    beq_self_eq_true, hnle] at hsched
  rw [if_neg (by decide : ¬ (("active" == "cancelled") = true))] at hsched
  have hnotin : ∀ s : String,
      (eid ++ ("::" ++ s)) ∉ (clear_event_jobs eid st.sched).map
        (fun j => j.id) := by
    intro s h
    obtain ⟨j, hj, hjid⟩ := List.mem_map.mp h
    exact mem_clear_no_key hj s hjid
  refine ⟨?_, ?_, ?_, ?_, ?_⟩
  · rw [hsched, List.map_append, List.mem_append]
    exact (or_iff_right (hnotin "day_before")).trans (added_ids_mem now dt eid).1
  · rw [hsched, List.map_append, List.mem_append]
    exact (or_iff_right (hnotin "hour_before")).trans (added_ids_mem now dt eid).2.1
  · rw [hsched, List.map_append, List.mem_append]
    exact (or_iff_right (hnotin "start")).trans (added_ids_mem now dt eid).2.2.1
  · rw [hsched, List.map_append, List.mem_append]
    exact (or_iff_right (hnotin "feedback")).trans (added_ids_mem now dt eid).2.2.2
  · intro hlt
    have c1 : dt - 86400 ≤ now := by omega
    have c2 : dt - 3600 ≤ now := by omega
    have c4 : ¬ dt + 86400 ≤ now := by omega
    rw [hsched, List.filter_append, filter_clear_nil, filter_added_self,
      List.nil_append]
    simp [added_jobs, c1, c2, hnle, c4]

/-- Settings projection matching the demo store's current event. -/
def demoSettings : Settings :=
  { current_event_datetime := some "2030-06-01T18:00:00+03:00",
    current_event_id := some "2030-06-01__demo" }

/-- A plan state over the demo store with empty registries. -/
def demoPlanState : PlanState :=
  { store := demoStore, sched := [], userq := [] }

/-- Witness for C5: the demo event starts at instant 2000; at `now = 1000`
(closer than day/hour offsets in abstract seconds, and within the hour window
since 2000 < 1000 + 3600) only the start and feedback jobs survive. -/
theorem near_start_replan_jobs_witness :
    (("2030-06-01__demo" ++ "::day_before") ∈
        ((schedule_all_reminders demoEnv 1000 "iso" demoSettings []
          demoPlanState).sched).map (fun j => j.id) ↔ (1000 : Int) < 2000 - 86400) ∧
    (("2030-06-01__demo" ++ "::hour_before") ∈
        ((schedule_all_reminders demoEnv 1000 "iso" demoSettings []
          demoPlanState).sched).map (fun j => j.id) ↔ (1000 : Int) < 2000 - 3600) ∧
    (("2030-06-01__demo" ++ "::start") ∈
        ((schedule_all_reminders demoEnv 1000 "iso" demoSettings []
          demoPlanState).sched).map (fun j => j.id) ↔ (1000 : Int) < 2000) ∧
    (("2030-06-01__demo" ++ "::feedback") ∈
        ((schedule_all_reminders demoEnv 1000 "iso" demoSettings []
          demoPlanState).sched).map (fun j => j.id) ↔ (1000 : Int) < 2000 + 86400) ∧
    ((2000 : Int) < 1000 + 3600 →
      ((((schedule_all_reminders demoEnv 1000 "iso" demoSettings []
          demoPlanState).sched).filter
          (fun j => pyStartswith ("2030-06-01__demo" ++ "::") j.id)).map
            (fun j => j.id))
        = ["2030-06-01__demo" ++ "::start", "2030-06-01__demo" ++ "::feedback"]) :=
  near_start_replan_jobs demoEnv 1000 "iso" demoSettings [] demoPlanState
    "2030-06-01T18:00:00+03:00" "2030-06-01__demo" 2000 demoEventA
    (by decide) (by decide) (by decide) (by decide) (by decide) (by decide)
    (by decide) (by decide)

/-! ## Delivery callbacks (src/scheduler.py:23-88, src/reminders.py:126-151)

A callback's effect is modelled as the ordered list of chat ids to which a
`send_message` call was issued, plus a flag saying whether an exception
escaped the callback.  `send_ok` models the transport: `false` means the send
raises.  Participants come as optional ints: `none` is a missing/unparseable
`chat_id` cell, and Python treats chat id `0` as falsy (`if not chat_id`). -/

/-- The participants that pass the `if not chat_id` / `int(...)` guards. -/
def valid_chats : List (Option Int) → List Int
  | [] => []
  | none :: rest => valid_chats rest
  | some c :: rest => if c = 0 then valid_chats rest else c :: valid_chats rest

/-- The shared fan-out loop shape: iterate participants and send.  With
`catch_errors = true` (a `try`/`except` around the send, as in
`_send_timed_reminder`) a failed send is logged and the loop continues; with
`catch_errors = false` (no `try`, as in `_send_feedback_request`) the first
failure aborts the loop and the exception escapes. -/
def fanout_sends (send_ok : Int → Bool) (catch_errors : Bool) :
    List (Option Int) → List Int × Bool
  | [] => ([], false)
  | none :: rest => fanout_sends send_ok catch_errors rest
  | some c :: rest =>
    if c = 0 then fanout_sends send_ok catch_errors rest
    else if send_ok c then
      let r := fanout_sends send_ok catch_errors rest
      (c :: r.1, r.2)
    else if catch_errors then
      let r := fanout_sends send_ok catch_errors rest
      (c :: r.1, r.2)
    else ([c], true)

/-- `_send_timed_reminder` (src/scheduler.py:23-69): re-validate the event at
fire time, then fan out with per-recipient `try`/`except`.  The message text
and keyboard are presentation, out of model scope. -/
def timed_reminder_sends (env : Env) (now : Int) (nowIso : String) (s : Store)
    (participants : List (Option Int)) (send_ok : Int → Bool)
    (event_id : String) : List Int × Bool :=
  match (get_event env now nowIso s event_id).1 with
  | none => ([], false)
  | some e =>
    if classify_status env now e = "cancelled" then ([], false)
    else fanout_sends send_ok true participants

/-- `_send_feedback_request` (src/scheduler.py:72-88): same re-validation, but
the send has no `try`/`except`; the `awaiting_feedback` marking and the final
user-reminder teardown are outside the delivery claims. -/
def feedback_request_sends (env : Env) (now : Int) (nowIso : String)
    (s : Store) (participants : List (Option Int)) (send_ok : Int → Bool)
    (event_id : String) : List Int × Bool :=
  match (get_event env now nowIso s event_id).1 with
  | none => ([], false)
  | some e =>
    if classify_status env now e = "cancelled" then ([], false)
    else fanout_sends send_ok false participants

/-- `_deliver_user_event_reminder` (src/reminders.py:126-151): validate the
job payload, re-validate the event (`cancelled` and `past` are silent
no-ops), then attempt the single send (wrapped in `try`/`except`).  Returns
the chats to which a send was attempted.  Note: the roster is never
consulted here. -/
def deliver_user_event_reminder (env : Env) (now : Int) (nowIso : String)
    (s : Store) (data_chat : Option Int) (data_event : Option String)
    (data_label : Option String) : List Int :=
  match data_chat, data_event, data_label with
  | some chat, some eid, some label =>
    if chat = 0 then []
    else if eid = "" then []
    else if label ≠ "day" ∧ label ≠ "hour" then []
    else
      match (get_event env now nowIso s eid).1 with
      | none => []
      | some e =>
        if classify_status env now e = "cancelled" ∨
            classify_status env now e = "past" then []
        else [chat]
  | _, _, _ => []

theorem find?_auto (env : Env) (now : Int) (nowIso : String) (eid : String)
    (l : List Event) :
    (auto_update_status env now nowIso l).find? (fun e => e.event_id == eid)
      = (l.find? (fun e => e.event_id == eid)).map
          (auto_update_event env now nowIso) := by
  unfold auto_update_status
  rw [List.find?_map]
  have hpred : ((fun e : Event => e.event_id == eid) ∘
      auto_update_event env now nowIso) = (fun e => e.event_id == eid) := by
    funext e
    simp [Function.comp, auto_update_event_id]
  rw [hpred]

theorem auto_update_event_cancelled (env : Env) (now : Int) (nowIso : String)
    {e : Event} (h : e.status = "cancelled") :
    auto_update_event env now nowIso e = e := by
  unfold auto_update_event
  rw [if_pos h]

theorem find?_update_first {l : List Event} {eid : String} {e1 : Event}
    (he1 : e1.event_id = eid)
    (hfound : (l.find? (fun e => e.event_id == eid)).isSome) :
    (update_first eid (fun _ => e1) l).find? (fun e => e.event_id == eid)
      = some e1 := by
  induction l with
  | nil => simp at hfound
  | cons x rest ih =>
    by_cases hx : x.event_id = eid
    · rw [update_first, if_pos hx]
      rw [List.find?_cons_of_pos _ (by simp [he1])]
    · rw [update_first, if_neg hx]
      rw [List.find?_cons_of_neg _ (by simp [hx])]
      rw [List.find?_cons_of_neg _ (by simp [hx])] at hfound
      exact ih hfound

theorem get_event_after_cancel (env : Env) (now : Int) (nowIso : String)
    (s : Store) (eid : String) (E : Event) (cur : Option String)
    (hide1 : E.event_id = eid) (hstat : E.status = "cancelled")
    (hfound : (s.events.find? (fun e => e.event_id == eid)).isSome) :
    (get_event env now nowIso
        (if cur = some eid
         then set_current_event env now nowIso
            (Store.mk (update_first eid (fun _ => E) s.events) cur) (some eid)
         else Store.mk (update_first eid (fun _ => E) s.events) cur)
        eid).1 = some E := by
  have hupd := find?_update_first (l := s.events) hide1 hfound
  split
  · unfold set_current_event get_event
    dsimp only
    rw [if_pos (by rw [find?_auto, hupd]; rfl), find?_auto, find?_auto, hupd]
    simp [auto_update_event_cancelled env now nowIso hstat]
  · unfold get_event
    dsimp only
    rw [if_pos (by rw [hupd]; rfl), find?_auto, hupd]
    simp [auto_update_event_cancelled env now nowIso hstat]

/-- C4: once `cancel(event_id)` has persisted the `cancelled` status, every
firing callback of the event — the three timed broadcasts, the feedback
broadcast, and the personal reminder — re-validates the status and sends
nothing to any chat, with no exception escaping. -/
theorem cancelled_event_fires_no_send (env : Env) (now : Int)
    (nowIso : String) (s : Store) (eid : String) (e' : Event) (s' : Store)
    (hc : cancel_event env now nowIso s eid = some (e', s'))
    (participants : List (Option Int)) (send_ok : Int → Bool) :
    timed_reminder_sends env now nowIso s' participants send_ok eid
      = ([], false) ∧
    feedback_request_sends env now nowIso s' participants send_ok eid
      = ([], false) ∧
    (∀ (chat : Int) (label : String),
      deliver_user_event_reminder env now nowIso s' (some chat) (some eid)
        (some label) = []) := by
  unfold cancel_event update_event at hc
  cases hfind : s.events.find? (fun e => e.event_id == eid) with
  | none =>
    rw [hfind] at hc
    cases hc
  | some e0 =>
    rw [hfind] at hc
    dsimp only at hc
    rw [Option.some.injEq, Prod.mk.injEq] at hc
    obtain ⟨hfst, hsnd⟩ := hc
    subst hfst
    subst hsnd
    have hstat : ({ List.foldl apply_field e0
        [(("status" : String), some "cancelled")] with
        updated_at := nowIso } : Event).status = "cancelled" := rfl
    have hid0 : e0.event_id = eid := by
      have := List.find?_some hfind
      simpa using this
    have hide1 : ({ List.foldl apply_field e0
        [(("status" : String), some "cancelled")] with
        updated_at := nowIso } : Event).event_id = eid := hid0
    have hfound : (s.events.find? (fun e => e.event_id == eid)).isSome := by
      rw [hfind]; rfl
    have hget := get_event_after_cancel env now nowIso s eid _
      s.current_event_id hide1 hstat hfound
    have hcl : classify_status env now ({ List.foldl apply_field e0
        [(("status" : String), some "cancelled")] with
        updated_at := nowIso } : Event) = "cancelled" :=
      (classify_cancelled_iff env now _).mpr hstat
    refine ⟨?_, ?_, ?_⟩
    · unfold timed_reminder_sends
      rw [hget]
      dsimp only
      rw [if_pos hcl]
    · unfold feedback_request_sends
      rw [hget]
      dsimp only
      rw [if_pos hcl]
    · intro chat label
      unfold deliver_user_event_reminder
      dsimp only
      by_cases hch : chat = 0
      · rw [if_pos hch]
      · rw [if_neg hch]
        by_cases hei : eid = ""
        · rw [if_pos hei]
        · rw [if_neg hei]
          by_cases hla : label ≠ "day" ∧ label ≠ "hour"
          · rw [if_pos hla]
          · rw [if_neg hla, hget]
            dsimp only
            rw [if_pos (Or.inl hcl)]

/-- The demo event after `cancel`: status persisted as cancelled. -/
def demoCancelledEvent : Event :=
  { demoEventA with status := "cancelled", updated_at := "iso" }

/-- The demo store after `cancel` of its current event. -/
def demoCancelledStore : Store :=
  { events := [demoCancelledEvent], current_event_id := some "2030-06-01__demo" }

/-- Witness for C4 at the demo store: after cancelling the current demo
event, the three callbacks all deliver nothing. -/
theorem cancelled_event_fires_no_send_witness :
    timed_reminder_sends demoEnv 1000 "iso" demoCancelledStore [some 5]
        (fun _ => true) "2030-06-01__demo" = ([], false) ∧
    feedback_request_sends demoEnv 1000 "iso" demoCancelledStore [some 5]
        (fun _ => true) "2030-06-01__demo" = ([], false) ∧
    deliver_user_event_reminder demoEnv 1000 "iso" demoCancelledStore
        (some 5) (some "2030-06-01__demo") (some "day") = [] := by
  have h := cancelled_event_fires_no_send demoEnv 1000 "iso" demoStore
    "2030-06-01__demo" demoCancelledEvent demoCancelledStore (by decide)
    [some 5] (fun _ => true)
  exact ⟨h.1, h.2.1, h.2.2 5 "day"⟩

theorem fanout_catch_eq (send_ok : Int → Bool) (l : List (Option Int)) :
    fanout_sends send_ok true l = (valid_chats l, false) := by
  induction l with
  | nil => rfl
  | cons c rest ih =>
    cases c with
    | none =>
      rw [fanout_sends, valid_chats, ih]
    | some v =>
      rw [fanout_sends, valid_chats]
      by_cases hv : v = 0
      · rw [if_pos hv, if_pos hv, ih]
      · rw [if_neg hv, if_neg hv]
        by_cases hs : send_ok v = true
        · rw [if_pos hs, ih]
        · rw [if_neg hs, if_pos rfl, ih]

theorem fanout_nocatch_escape_iff (send_ok : Int → Bool)
    (l : List (Option Int)) :
    (fanout_sends send_ok false l).2 = true ↔
      ∃ c ∈ valid_chats l, send_ok c = false := by
  induction l with
  | nil => simp [fanout_sends, valid_chats]
  | cons c rest ih =>
    cases c with
    | none => rw [fanout_sends, valid_chats]; exact ih
    | some v =>
      rw [fanout_sends, valid_chats]
      by_cases hv : v = 0
      · rw [if_pos hv, if_pos hv]
        exact ih
      · rw [if_neg hv, if_neg hv]
        by_cases hs : send_ok v = true
        · rw [if_pos hs]
          dsimp only
          rw [ih]
          constructor
          · rintro ⟨c, hc, hc'⟩
            exact ⟨c, List.mem_cons_of_mem _ hc, hc'⟩
          · rintro ⟨c, hc, hc'⟩
            rcases List.mem_cons.mp hc with h | h
            · rw [h] at hc'
              rw [hs] at hc'
              cases hc'
            · exact ⟨c, h, hc'⟩
        · rw [if_neg hs, if_neg (by simp)]
          simp only [true_iff]
          exact ⟨v, List.mem_cons_self v _,
            Bool.not_eq_true (send_ok v) ▸ Bool.of_not_eq_true hs⟩

/-- C6 (counterexample): in the feedback broadcast a send failure for the
first recipient escapes the callback and recipient 2 is never attempted —
the claim's isolation property fails for the `feedback` job kind, whose send
has no `try`/`except` (src/scheduler.py:87). -/
theorem feedback_failure_aborts_fanout :
    (feedback_request_sends demoEnv 1000 "iso" demoStore [some 1, some 2]
        (fun c => c != 1) "2030-06-01__demo").2 = true ∧
    (2 : Int) ∉ (feedback_request_sends demoEnv 1000 "iso" demoStore
        [some 1, some 2] (fun c => c != 1) "2030-06-01__demo").1 := by
  decide

/-- C6 (amended): per-recipient failure isolation holds for the
`day_before`/`hour_before`/`at_start` broadcasts — every valid recipient is
attempted in order and no exception escapes, whatever the transport does —
but not for `feedback`: there an exception escapes exactly when some valid
recipient's send fails, aborting the remaining fan-out. -/
theorem per_recipient_isolation_amended (env : Env) (now : Int)
    (nowIso : String) (s : Store) (participants : List (Option Int))
    (send_ok : Int → Bool) (eid : String) (e : Event)
    (hget : (get_event env now nowIso s eid).1 = some e)
    (hcl : classify_status env now e ≠ "cancelled") :
    timed_reminder_sends env now nowIso s participants send_ok eid
      = (valid_chats participants, false) ∧
    ((feedback_request_sends env now nowIso s participants send_ok eid).2
        = true ↔ ∃ c ∈ valid_chats participants, send_ok c = false) := by
  constructor
  · unfold timed_reminder_sends
    rw [hget]
    dsimp only
    rw [if_neg hcl]
    exact fanout_catch_eq send_ok participants
  · unfold feedback_request_sends
    rw [hget]
    dsimp only
    rw [if_neg hcl]
    exact fanout_nocatch_escape_iff send_ok participants

/-- Witness for the amended C6 at the demo store with a transport that fails
for chat 1: the timed broadcast still attempts all of 1, 2 without escaping,
and the feedback broadcast escapes. -/
theorem per_recipient_isolation_amended_witness :
    timed_reminder_sends demoEnv 1000 "iso" demoStore [some 1, none, some 2]
        (fun c => c != 1) "2030-06-01__demo"
      = (valid_chats [some 1, none, some 2], false) ∧
    ((feedback_request_sends demoEnv 1000 "iso" demoStore
        [some 1, none, some 2] (fun c => c != 1) "2030-06-01__demo").2 = true ↔
      ∃ c ∈ valid_chats [some 1, none, some 2], (fun c : Int => c != 1) c = false) :=
  per_recipient_isolation_amended demoEnv 1000 "iso" demoStore
    [some 1, none, some 2] (fun c => c != 1) "2030-06-01__demo"
    (auto_update_event demoEnv 1000 "iso" demoEventA)
    (by decide) (by decide)

/-- C9 (counterexample): the personal-reminder firing callback never consults
the roster.  With an empty roster (chat 555 unregistered) and a valid active
event, the callback still attempts the send to 555 instead of being a silent
no-op. -/
theorem personal_reminder_no_roster_check_cex :
    deliver_user_event_reminder demoEnv 1000 "iso" demoStore (some 555)
        (some "2030-06-01__demo") (some "day") = [555] ∧
    (555 : Int) ∉ ([] : List Int) := by
  decide

/-- C9 (amended): the firing callback re-validates only the event — missing
event, `cancelled` or `past` classification (or malformed job data) are
silent no-ops — and otherwise attempts the send; it takes no roster input at
all, so an unregistered participant still receives the reminder. -/
theorem personal_reminder_fire_validation (env : Env) (now : Int)
    (nowIso : String) (s : Store) (chat : Int) (eid label : String)
    (hchat : chat ≠ 0) (heid : eid ≠ "")
    (hlabel : label = "day" ∨ label = "hour") :
    ((get_event env now nowIso s eid).1 = none →
      deliver_user_event_reminder env now nowIso s (some chat) (some eid)
        (some label) = []) ∧
    (∀ e, (get_event env now nowIso s eid).1 = some e →
      ((classify_status env now e = "cancelled" ∨
          classify_status env now e = "past") →
        deliver_user_event_reminder env now nowIso s (some chat) (some eid)
          (some label) = []) ∧
      (classify_status env now e = "active" →
        deliver_user_event_reminder env now nowIso s (some chat) (some eid)
          (some label) = [chat])) := by
  have hla : ¬ (label ≠ "day" ∧ label ≠ "hour") := by
    rcases hlabel with h | h <;> simp [h]
  constructor
  · intro hnone
    unfold deliver_user_event_reminder
    dsimp only
    rw [if_neg hchat, if_neg heid, if_neg hla, hnone]
  · intro e hsome
    constructor
    · intro hcp
      unfold deliver_user_event_reminder
      dsimp only
      rw [if_neg hchat, if_neg heid, if_neg hla, hsome]
      dsimp only
      rw [if_pos hcp]
    · intro hact
      unfold deliver_user_event_reminder
      dsimp only
      rw [if_neg hchat, if_neg heid, if_neg hla, hsome]
      dsimp only
      rw [if_neg (by rw [hact]; decide)]

/-- Witness for the amended C9: for the active demo event the callback
attempts the send to chat 555 (whatever the roster holds), and for the
cancelled demo store it is a no-op. -/
theorem personal_reminder_fire_validation_witness :
    deliver_user_event_reminder demoEnv 1000 "iso" demoStore (some 555)
        (some "2030-06-01__demo") (some "hour") = [555] ∧
    deliver_user_event_reminder demoEnv 1000 "iso" demoCancelledStore
        (some 555) (some "2030-06-01__demo") (some "hour") = [] := by
  constructor
  · exact ((personal_reminder_fire_validation demoEnv 1000 "iso" demoStore
      555 "2030-06-01__demo" "hour" (by decide) (by decide)
      (Or.inr rfl)).2 demoEventA (by decide)).2 (by decide)
  · exact ((personal_reminder_fire_validation demoEnv 1000 "iso"
      demoCancelledStore 555 "2030-06-01__demo" "hour" (by decide) (by decide)
      (Or.inr rfl)).2 demoCancelledEvent (by decide)).1 (Or.inl (by decide))

/-! ## Event index and pagination (src/events.py:205-546) -/

/-- One entry of `_collect_sheet_index` (keyed by sheet name; the regex
filtering over raw worksheet titles happens upstream of this model). -/
structure SheetInfo where
  sheet_name : String
  sheet_id : Option Int
  sheet_index : Option Int
deriving DecidableEq, Repr

/-- One entry of the events index (`_build_index_items` output). -/
structure IndexItem where
  event_id : String
  sheet_name : String
  sheet_id : Option Int
  sheet_index : Option Int
  event : Event
deriving DecidableEq, Repr

/-- The cached index state (`events_index`). -/
structure IndexState where
  fetched_at : Option String
  items : List IndexItem
  current_event_id : Option String
deriving DecidableEq, Repr

/-- The status rank of `_sorted_events` (unknown statuses rank last). -/
def status_order (env : Env) (now : Int) (e : Event) : Nat :=
  if classify_status env now e = "active" then 0
  else if classify_status env now e = "past" then 1
  else if classify_status env now e = "cancelled" then 2
  else 3

/-- `dt.timestamp() if dt else 0.0` (integral instants in the model). -/
def event_ts (env : Env) (e : Event) : Int :=
  match parsed_datetime env e with
  | some t => t
  | none => 0

/-- The `_sorted_events` key: `(status rank, -timestamp, lowercased title)`. -/
def sort_key (env : Env) (now : Int) (e : Event) : Nat × Int × String :=
  (status_order env now e, -(event_ts env e), env.lower e.title)

/-- Lexicographic comparison of sort keys (Python tuple order). -/
def key_le (a b : Nat × Int × String) : Bool :=
  decide (a.1 < b.1 ∨ (a.1 = b.1 ∧ (a.2.1 < b.2.1 ∨
    (a.2.1 = b.2.1 ∧ a.2.2 ≤ b.2.2))))

/-- Stable insertion of `e` after every element that compares at-or-below. -/
def insert_by (le : Event → Event → Bool) (e : Event) : List Event → List Event
  | [] => [e]
  | x :: xs => if le x e then x :: insert_by le e xs else e :: x :: xs

/-- `_sorted_events`: Python's `list.sort` is a stable ascending sort by
`sort_key`; modelled as a stable insertion sort (equal keys keep their
original relative order). -/
def sorted_events (env : Env) (now : Int) (events : List Event) :
    List Event :=
  events.foldl
    (fun acc e =>
      insert_by (fun a b => key_le (sort_key env now a) (sort_key env now b))
        e acc)
    []

/-- `_placeholder_event_dict` (src/events.py:221-236). -/
def placeholder_event (nowIso : String) (event_id : String) : Event :=
  { event_id := event_id
    title := event_id
    description := ""
    datetime_local := ""
    timezone := TIMEZONE
    zoom_url := ""
    pay_url := ""
    sheet_name := event_id
    sheet_link := ""
    status := "active"
    created_at := nowIso
    updated_at := nowIso }

/-- Dictionary lookup over the collected sheet index. -/
def sheet_lookup (sheets : List SheetInfo) (name : String) : Option SheetInfo :=
  sheets.find? (fun info => info.sheet_name == name)

/-- `_build_index_items` (src/events.py:239-269): one entry per sorted event
(resolving its sheet metadata), then placeholder entries for sheets without a
matching event. -/
def build_index_items (env : Env) (now : Int) (nowIso : String)
    (events : List Event) (sheets : List SheetInfo) : List IndexItem :=
  let step := fun (acc : List IndexItem × List String) (e : Event) =>
    let sheet_key := if e.sheet_name = "" then e.event_id else e.sheet_name
    let info :=
      match sheet_lookup sheets sheet_key with
      | some i => some i
      | none => sheet_lookup sheets e.event_id
    let item : IndexItem :=
      { event_id := e.event_id
        sheet_name := match info with | some i => i.sheet_name | none => sheet_key
        sheet_id := match info with | some i => i.sheet_id | none => none
        sheet_index := match info with | some i => i.sheet_index | none => none
        event := e }
    (acc.1 ++ [item], acc.2 ++ [sheet_key, e.event_id])
  let first := (sorted_events env now events).foldl step ([], [])
  let extras := sheets.filterMap (fun info =>
    if first.2.contains info.sheet_name then none
    else some
      { event_id := info.sheet_name
        sheet_name := info.sheet_name
        sheet_id := info.sheet_id
        sheet_index := info.sheet_index
        event := placeholder_event nowIso info.sheet_name })
  first.1 ++ extras

/-- `_pick_latest_event_id` (src/events.py:272-286), including the falsy
check on the chosen id. -/
def pick_latest_event_id (env : Env) (events : List Event) : Option String :=
  let best := events.foldl (fun (acc : Option (String × Int)) e =>
    match parsed_datetime env e with
    | none => acc
    | some t =>
      match acc with
      | none => some (e.event_id, t)
      | some (_, bt) => if bt < t then some (e.event_id, t) else acc) none
  match best with
  | some (eid, _) =>
    if eid = "" then
      match events with
      | [] => none
      | e :: _ => some e.event_id
    else some eid
  | none =>
    match events with
    | [] => none
    | e :: _ => some e.event_id

/-- `events_bootstrap` (src/events.py:330-349): rebuild the index items,
resolve the current pointer (kept when stored and present, else the
latest-starting event, persisting the change), and stamp `fetched_at`. -/
def events_bootstrap (env : Env) (now : Int) (nowIso : String) (s : Store)
    (sheets : List SheetInfo) : IndexState × Store :=
  let items := build_index_items env now nowIso s.events sheets
  let stored_ok :=
    match s.current_event_id with
    | some c => (!(c == "")) && s.events.any (fun e => e.event_id == c)
    | none => false
  if stored_ok then
    ({ fetched_at := some nowIso, items := items,
       current_event_id := s.current_event_id }, s)
  else
    let cur := pick_latest_event_id env s.events
    let s' :=
      if cur ≠ s.current_event_id
      then set_current_event env now nowIso s cur else s
    ({ fetched_at := some nowIso, items := items,
       current_event_id := cur }, s')

/-- `get_events_page` (src/events.py:515-546): bootstrap when no cached
state, default the page size, return `([], 0, 0, 1)` on an empty index, else
clamp the page, slice, and hydrate entries against the (auto-updated) store —
the event map is a dict comprehension, so a duplicated id resolves to its
last occurrence. -/
def get_events_page (env : Env) (now : Int) (nowIso : String)
    (state? : Option IndexState) (s : Store) (sheets : List SheetInfo)
    (page size : Int) :
    (List Event × Int × Int × Int) × IndexState × Store :=
  let bs :=
    match state? with
    | some st => (st, s)
    | none => events_bootstrap env now nowIso s sheets
  let state := bs.1
  let s1 := bs.2
  let items := state.items
  let total : Int := items.length
  let size := if size ≤ 0 then 5 else size
  if total = 0 then (([], 0, 0, 1), state, s1)
  else
    let total_pages := (total + size - 1) / size
    let page := max 1 (min page total_pages)
    let start := (page - 1) * size
    let sliced := (items.drop start.toNat).take size.toNat
    let evs := auto_update_status env now nowIso s1.events
    let s2 : Store := { events := evs, current_event_id := s1.current_event_id }
    let hydrated := sliced.map (fun it =>
      if it.event_id = "" then it.event
      else
        match evs.reverse.find? (fun e => e.event_id == it.event_id) with
        | some ev => ev
        | none => it.event)
    ((hydrated, total_pages, total, page), state, s2)

/-- C8 (counterexample): on an empty store with no external rosters and no
cached state, `get_events_page(1, 5)` does not return `total_pages = 1` — the
empty-index branch returns `([], 0, 0, 1)`, so the result differs from the
claimed `([], 1, 0, 1)`. -/
theorem get_events_page_empty_cex :
    (get_events_page demoEnv 1000 "iso" none (Store.mk [] none) [] 1 5).1
      ≠ ([], 1, 0, 1) ∧
    (get_events_page demoEnv 1000 "iso" none (Store.mk [] none) [] 1 5).1.2.1
      = 0 := by
  decide

/-- C8 (amended): with zero index items (empty store, no external rosters, no
cached state) `get_events_page` returns the empty item list with
`total_pages = 0`, `total = 0` and resolved page `1`, for every requested
page and size. -/
theorem get_events_page_empty_amended (env : Env) (now : Int)
    (nowIso : String) (s : Store) (page size : Int) (hev : s.events = []) :
    (get_events_page env now nowIso none s [] page size).1
      = ([], 0, 0, 1) := by
  obtain ⟨evs, cur⟩ := s
  dsimp only at hev
  subst hev
  cases cur with
  | none => rfl
  | some c =>
    unfold get_events_page events_bootstrap
    dsimp only
    rw [show ((!(c == "")) &&
        List.any ([] : List Event) (fun e => e.event_id == c)) = false
      from Bool.and_false _]
    rfl

/-- Witness for the amended C8 at a concrete empty store. -/
theorem get_events_page_empty_amended_witness :
    (get_events_page demoEnv 1000 "iso" none (Store.mk [] none) [] 1 5).1
      = ([], 0, 0, 1) :=
  get_events_page_empty_amended demoEnv 1000 "iso" (Store.mk [] none) 1 5 rfl

theorem parsed_datetime_set_status (env : Env) (e : Event) (st iso : String) :
    parsed_datetime env { e with status := st, updated_at := iso }
      = parsed_datetime env e := rfl

theorem auto_update_of_parsed_le (env : Env) (now : Int) (nowIso : String)
    (e : Event) (t : Int) (hc : e.status ≠ "cancelled")
    (hp : parsed_datetime env e = some t) (hle : t ≤ now) :
    (auto_update_event env now nowIso e).status = "past" ∧
    parsed_datetime env (auto_update_event env now nowIso e)
      = parsed_datetime env e := by
  unfold auto_update_event
  rw [if_neg hc, show event_local_datetime env e = some t from hp]
  dsimp only
  by_cases hstat : e.status ≠ (if t ≤ now then "past" else "active")
  · rw [if_pos hstat]
    exact ⟨by rw [if_pos hle], rfl⟩
  · rw [if_neg hstat]
    push_neg at hstat
    exact ⟨by rw [hstat, if_pos hle], rfl⟩

theorem auto_update_of_none (env : Env) (now : Int) (nowIso : String)
    (e : Event) (hp : parsed_datetime env e = none) :
    auto_update_event env now nowIso e = e := by
  unfold auto_update_event
  split
  · rfl
  · rw [show event_local_datetime env e = none from hp]

theorem classify_parsed_le (env : Env) (now : Int) (e : Event) (t : Int)
    (hc : e.status ≠ "cancelled") (hp : parsed_datetime env e = some t)
    (hle : t ≤ now) : classify_status env now e = "past" := by
  unfold classify_status
  rw [if_neg hc, show event_local_datetime env e = some t from hp]
  dsimp only
  rw [if_pos hle]

theorem classify_none_eq (env : Env) (now : Int) (e : Event)
    (hc : e.status ≠ "cancelled") (hp : parsed_datetime env e = none) :
    classify_status env now e = (if e.status = "" then "active" else e.status) := by
  unfold classify_status
  rw [if_neg hc, show event_local_datetime env e = none from hp]

theorem force_past_of_past {nowIso : String} {e : Event}
    (h : e.status = "past") : force_past_event nowIso e = e := by
  unfold force_past_event
  rw [if_neg (by simp [h])]

/-- One prior event through `create_event`'s status pipeline (auto-update,
force-past, auto-update again): when its start is not in the future, it ends
with a terminal persisted status and never classifies `active`. -/
theorem prior_pipeline_not_active (env : Env) (now : Int) (nowIso : String)
    (e : Event)
    (hyp : e.status ≠ "cancelled" → parsed_datetime env e = none ∨
      ∃ t, parsed_datetime env e = some t ∧ t ≤ now) :
    ((auto_update_event env now nowIso (force_past_event nowIso
        (auto_update_event env now nowIso e))).status = "past" ∨
     (auto_update_event env now nowIso (force_past_event nowIso
        (auto_update_event env now nowIso e))).status = "cancelled") ∧
    classify_status env now (auto_update_event env now nowIso
      (force_past_event nowIso (auto_update_event env now nowIso e)))
      ≠ "active" := by
  by_cases hc : e.status = "cancelled"
  · rw [auto_update_event_cancelled env now nowIso hc,
      show force_past_event nowIso e = e from by
        unfold force_past_event
        rw [if_neg (by simp [hc])],
      auto_update_event_cancelled env now nowIso hc]
    refine ⟨Or.inr hc, ?_⟩
    rw [(classify_cancelled_iff env now e).mpr hc]
    decide
  · rcases hyp hc with hpn | ⟨t, hp, hle⟩
    · rw [auto_update_of_none env now nowIso e hpn]
      by_cases hpast : e.status = "past"
      · rw [force_past_of_past hpast, auto_update_of_none env now nowIso e hpn]
        refine ⟨Or.inl hpast, ?_⟩
        rw [classify_none_eq env now e hc hpn, if_neg (by rw [hpast]; decide),
          hpast]
        decide
      · have hforce : force_past_event nowIso e
            = { e with status := "past", updated_at := nowIso } := by
          unfold force_past_event
          rw [if_pos ⟨hc, hpast⟩]
        rw [hforce]
        have hpn' : parsed_datetime env
            { e with status := "past", updated_at := nowIso } = none := hpn
        rw [auto_update_of_none env now nowIso _ hpn']
        refine ⟨Or.inl rfl, ?_⟩
        rw [classify_none_eq env now _
          (by show ("past" : String) ≠ "cancelled"; decide) hpn']
        show (if ("past" : String) = "" then "active" else "past") ≠ "active"
        decide
    · obtain ⟨h1, h2⟩ := auto_update_of_parsed_le env now nowIso e t hc hp hle
      rw [hp] at h2
      rw [force_past_of_past h1]
      obtain ⟨h3, h4⟩ := auto_update_of_parsed_le env now nowIso
        (auto_update_event env now nowIso e) t (by rw [h1]; decide) h2 hle
      refine ⟨Or.inl h3, ?_⟩
      rw [classify_parsed_le env now _ t (by rw [h3]; decide)
        (h4.trans h2) hle]
      decide

/-- C2 (amended): when no prior non-cancelled event has a parseable start in
the future, `create_event` makes the new event current, leaves every prior
event with persisted status `past` or `cancelled` (so none of them classifies
`active`), and at most one event in the store classifies `active` immediately
after the create. -/
theorem create_event_single_active_amended (env : Env) (now : Int)
    (nowIso : String) (s : Store) (title description : String)
    (event_dt : Int) (timezone zoom_url pay_url : String)
    (hprior : ∀ e ∈ s.events, e.status ≠ "cancelled" →
      parsed_datetime env e = none ∨
      ∃ t, parsed_datetime env e = some t ∧ t ≤ now) :
    ((create_event env now nowIso s title description event_dt timezone
        zoom_url pay_url).2).current_event_id
      = some ((create_event env now nowIso s title description event_dt
          timezone zoom_url pay_url).1).event_id ∧
    (∀ e' ∈ ((create_event env now nowIso s title description event_dt
        timezone zoom_url pay_url).2).events.dropLast,
      (e'.status = "past" ∨ e'.status = "cancelled") ∧
      classify_status env now e' ≠ "active") ∧
    ((create_event env now nowIso s title description event_dt timezone
        zoom_url pay_url).2).events.countP
      (fun e => classify_status env now e == "active") ≤ 1 := by
  have hev : ((create_event env now nowIso s title description event_dt
      timezone zoom_url pay_url).2).events
      = s.events.map (fun e => auto_update_event env now nowIso
          (force_past_event nowIso (auto_update_event env now nowIso e)))
        ++ [auto_update_event env now nowIso
            (create_event env now nowIso s title description event_dt
              timezone zoom_url pay_url).1] := by
    unfold create_event set_current_event
    dsimp only
    simp [auto_update_status, List.map_append, List.map_map, Function.comp]
  refine ⟨rfl, ?_, ?_⟩
  · rw [hev, List.dropLast_concat]
    intro e' hmem
    obtain ⟨e, hm, rfl⟩ := List.mem_map.mp hmem
    exact prior_pipeline_not_active env now nowIso e (hprior e hm)
  · rw [hev, List.countP_append]
    have hz : (s.events.map (fun e => auto_update_event env now nowIso
        (force_past_event nowIso (auto_update_event env now nowIso e)))).countP
        (fun e => classify_status env now e == "active") = 0 := by
      rw [List.countP_eq_zero]
      intro a ha
      obtain ⟨e, hm, rfl⟩ := List.mem_map.mp ha
      have := (prior_pipeline_not_active env now nowIso e (hprior e hm)).2
      simpa using this
    rw [hz]
    have : ∀ x : Event, List.countP
        (fun e => classify_status env now e == "active") [x] ≤ 1 := by
      intro x
      rw [List.countP_cons, List.countP_nil]
      split <;> omega
    simpa using this _

/-- Witness for the amended C2: at `now = 2500` the demo event (start 2000)
is already past, so creating the new event leaves exactly one
classify-`active` event. -/
theorem create_event_single_active_amended_witness :
    ((create_event demoEnv 2500 "w" demoStore "New Webinar" "" 3000
        "Europe/Moscow" "" "").2).current_event_id
      = some ((create_event demoEnv 2500 "w" demoStore "New Webinar" "" 3000
          "Europe/Moscow" "" "").1).event_id ∧
    (∀ e' ∈ ((create_event demoEnv 2500 "w" demoStore "New Webinar" "" 3000
        "Europe/Moscow" "" "").2).events.dropLast,
      (e'.status = "past" ∨ e'.status = "cancelled") ∧
      classify_status demoEnv 2500 e' ≠ "active") ∧
    ((create_event demoEnv 2500 "w" demoStore "New Webinar" "" 3000
        "Europe/Moscow" "" "").2).events.countP
      (fun e => classify_status demoEnv 2500 e == "active") ≤ 1 :=
  create_event_single_active_amended demoEnv 2500 "w" demoStore
    "New Webinar" "" 3000 "Europe/Moscow" "" ""
    (by
      intro e hm hc
      right
      have he : e = demoEventA := by
        simpa [demoStore] using hm
      subst he
      exact ⟨2000, by decide, by decide⟩)
